import Mathlib

/-!
Shallow embedding of the signal-fusion and trend-inference engine of the
`openclaw_stock` repository.

Sources embedded here:
* `src/openclaw_stock/analysis/chip_analysis.py` — chip (cost) distribution
  trend analysis: `_analyze_chip_trend`, `_calc_slope`, `_assess_chip_status`,
  `_empty_chip_result`, `analyze_chip_distribution`, `_safe_float`.
* `src/openclaw_stock/analysis/stock_analyzer.py` — the prediction section of
  `analyze_stock` (steps 8: cross-domain signal aggregation, classification,
  price-target band) and its per-domain nudges.

Python floats are modelled as exact rationals (`ℚ`); Python's `round(x, d)`
and `f"{x:.df}"` round-half-to-even, modelled by `roundHalfEven`/`roundTo`.
Pandas data frames become lists of typed rows; `df.iloc[a:b]` becomes
`(l.take b).drop a`; absent dictionary entries become `Option`.
-/

namespace OpenclawStock

/-! ## Numeric helpers -/

/-- Floor of a rational, computed from numerator and denominator. -/
def qfloor (x : ℚ) : ℤ := Int.fdiv x.num (x.den : ℤ)

/-- Round a rational to the nearest integer, ties to even: the semantics of
Python's builtin `round` (banker's rounding). -/
def roundHalfEven (x : ℚ) : ℤ :=
  let f := qfloor x
  let r := x - (f : ℚ)
  if r < 1/2 then f
  else if 1/2 < r then f + 1
  else if f % 2 = 0 then f else f + 1

/-- Python's `round(x, d)`: round to `d` decimal places, ties to even. -/
def roundTo (d : ℕ) (x : ℚ) : ℚ := ((roundHalfEven (x * (10:ℚ)^d) : ℚ)) / (10:ℚ)^d

/-- Mean of a list of rationals (`pandas.Series.mean`); callers only apply it
to non-empty lists, matching the source's guards. -/
def mean (l : List ℚ) : ℚ := l.sum / (l.length : ℚ)

/-- `_safe_float`: converts to float rounded to 4 decimals; the NaN/parse
fallbacks of the Python original are unrepresentable over `ℚ`. -/
def safeFloat (x : ℚ) : ℚ := roundTo 4 x

/-- Left-pad a numeral string with zeros to `d` digits. -/
def padLeftZeros (s : String) (d : ℕ) : String :=
  String.mk (List.replicate (d - s.length) '0') ++ s

/-- Python's fixed-point formatting `f"{x:.df}"` over exact rationals. -/
def fmtFixed (d : ℕ) (x : ℚ) : String :=
  let n := roundHalfEven (x * (10:ℚ)^d)
  let sign := if n < 0 then "-" else ""
  let a := n.natAbs
  let base := 10 ^ d
  if d = 0 then sign ++ toString a
  else sign ++ toString (a / base) ++ "." ++ padLeftZeros (toString (a % base)) d

/-- Python's `pat in s` substring test on strings. -/
def strContains (s pat : String) : Bool :=
  s.toList.tails.any (fun t => pat.toList.isPrefixOf t)

/-- `_calc_slope`: ordinary least-squares slope of `ys` against indices
`0, 1, …` (`np.polyfit(x, y, 1)[0]`); `0` for fewer than two points. -/
def calcSlope (ys : List ℚ) : ℚ :=
  if ys.length < 2 then 0
  else
    let n : ℚ := (ys.length : ℚ)
    let xs : List ℚ := (List.range ys.length).map (fun i => (i : ℚ))
    let sx := xs.sum
    let sy := ys.sum
    let sxy := ((xs.zip ys).map (fun p => p.1 * p.2)).sum
    let sxx := (xs.map (fun v => v * v)).sum
    (n * sxy - sx * sy) / (n * sxx - sx * sx)

/-! ## Chip-analysis data model (`chip_analysis.py`) -/

/-- One row of the chip-distribution frame returned by the data source
(`日期, 获利比例, 平均成本, 90成本-低/高, 90集中度, 70成本-低/高, 70集中度`). -/
structure ChipRow where
  date : String
  winnerRate : ℚ
  avgCost : ℚ
  cost90Low : ℚ
  cost90High : ℚ
  conc90 : ℚ
  cost70Low : ℚ
  cost70High : ℚ
  conc70 : ℚ
deriving DecidableEq, Repr

/-- One horizon's entry of the `multi_period` dictionary. -/
structure MPEntry where
  days : ℕ
  concentration90ChangePct : ℚ
  concentration70ChangePct : ℚ
  costCenterChangePct : ℚ
  winnerRateChange : ℚ
  recentAvgCost : ℚ
  earlierAvgCost : ℚ
  recentConcentration90 : ℚ
  recentWinnerRate : ℚ
deriving DecidableEq, Repr

/-- The `multi_period` dictionary: at most one entry per named horizon. -/
structure MultiPeriod where
  short : Option MPEntry := none
  medium : Option MPEntry := none
  long : Option MPEntry := none
deriving DecidableEq, Repr

/-- The `details` dictionary of the trend record; keys are optional because
they are only inserted on certain paths. -/
structure ChipDetails where
  recentConcentration90 : Option ℚ := none
  earlyConcentration90 : Option ℚ := none
  recentAvgCost : Option ℚ := none
  earlyAvgCost : Option ℚ := none
  recentWinnerRate : Option ℚ := none
  earlyWinnerRate : Option ℚ := none
  concentrationSlope : Option ℚ := none
  concentrationSpeed : Option String := none
  accumulationScore : Option ℕ := none
  distributionScore : Option ℕ := none
deriving DecidableEq, Repr

/-- The trend record built by `_analyze_chip_trend`; defaults are the values
the dictionary is initialised with. -/
structure ChipTrend where
  concentrationTrend : String := "stable"
  costCenterTrend : String := "stable"
  winnerRateTrend : String := "stable"
  periodDays : ℕ := 0
  institutionalSignal : String := "neutral"
  institutionalConfidence : String := "low"
  multiPeriod : MultiPeriod := {}
  details : ChipDetails := {}
  interpretation : List String := []
deriving DecidableEq, Repr

/-! ## Window slicing (`_analyze_chip_trend`, multi-period section) -/

/-- Recent window of a horizon: `df.iloc[-period_len:]`. -/
def mpRecentWindow (df : List ChipRow) (p : ℕ) : List ChipRow :=
  df.drop (df.length - p)

/-- Earlier window of a horizon:
`df.iloc[-(period_len * 2):-period_len] if len(df) >= period_len * 2 else df.iloc[:period_len]`. -/
def mpEarlierWindow (df : List ChipRow) (p : ℕ) : List ChipRow :=
  if p * 2 ≤ df.length then (df.drop (df.length - p * 2)).take p else df.take p

/-- One horizon's multi-period entry; `none` mirrors the `continue` that
skips a horizon when `len(df) < period_len + 5`. -/
def multiPeriodEntry (df : List ChipRow) (p : ℕ) : Option MPEntry :=
  if df.length < p + 5 then none
  else
    let recent := mpRecentWindow df p
    let earlier := mpEarlierWindow df p
    let recentConc90 := mean (recent.map (·.conc90))
    let earlierConc90 := mean (earlier.map (·.conc90))
    let recentConc70 := mean (recent.map (·.conc70))
    let earlierConc70 := mean (earlier.map (·.conc70))
    let recentAvgCost := mean (recent.map (·.avgCost))
    let earlierAvgCost := mean (earlier.map (·.avgCost))
    let recentWinner := mean (recent.map (·.winnerRate))
    let earlierWinner := mean (earlier.map (·.winnerRate))
    let conc90Change := if earlierConc90 ≠ 0 then (recentConc90 - earlierConc90) / earlierConc90 else 0
    let conc70Change := if earlierConc70 ≠ 0 then (recentConc70 - earlierConc70) / earlierConc70 else 0
    let costChange := if earlierAvgCost ≠ 0 then (recentAvgCost - earlierAvgCost) / earlierAvgCost else 0
    let winnerChange := recentWinner - earlierWinner
    some {
      days := p
      concentration90ChangePct := roundTo 2 (conc90Change * 100)
      concentration70ChangePct := roundTo 2 (conc70Change * 100)
      costCenterChangePct := roundTo 2 (costChange * 100)
      winnerRateChange := roundTo 2 (winnerChange * 100)
      recentAvgCost := roundTo 2 recentAvgCost
      earlierAvgCost := roundTo 2 earlierAvgCost
      recentConcentration90 := roundTo 4 recentConc90
      recentWinnerRate := roundTo 2 (recentWinner * 100) }

/-! ## Main-trend windows and label classifiers -/

/-- `recent = df.iloc[-recent_n:]` with `recent_n = min(5, len(df))`. -/
def mainRecentWindow (df : List ChipRow) : List ChipRow :=
  df.drop (df.length - min 5 df.length)

/-- `early = df.iloc[early_start:early_end]` with
`early_start = max(0, len(df) - 20)` and `early_end = max(recent_n, len(df) - 10)`. -/
def mainEarlyWindow (df : List ChipRow) : List ChipRow :=
  (df.take (max (min 5 df.length) (df.length - 10))).drop (max 0 (df.length - 20))

/-- Concentration-label classifier: the `if/elif` on
`recent_conc_90` versus `early_conc_90 * 0.95 / 1.05`. -/
def classifyConcentration (recent early : ℚ) : String :=
  if recent < early * (95/100) then "concentrating"
  else if recent > early * (105/100) then "dispersing"
  else "stable"

/-- Cost-center label classifier: `* 1.02` / `* 0.98` thresholds. -/
def classifyCostCenter (recent early : ℚ) : String :=
  if recent > early * (102/100) then "rising"
  else if recent < early * (98/100) then "falling"
  else "stable"

/-- Winner-rate label classifier: absolute `± 0.05` thresholds. -/
def classifyWinnerRate (recent early : ℚ) : String :=
  if recent > early + 5/100 then "rising"
  else if recent < early - 5/100 then "falling"
  else "stable"

/-! ## Behavioral scoring rule set (`信号1`–`信号8`) and verdict resolver -/

/-- One scoring rule (`if cond: accumulation_score += accW;
distribution_score += distW; interpretations.append(msg)`). -/
def chipRule (cond : Prop) [Decidable cond] (accW distW : ℕ) (msg : String)
    (s : ℕ × ℕ × List String) : ℕ × ℕ × List String :=
  if cond then (s.1 + accW, s.2.1 + distW, s.2.2 ++ [msg]) else s

/-- `信号8`: the 70%-concentration narrowing/widening `if/elif`, gated on
`len(df) >= 10`. -/
def signal8Block (has10 : Bool) (recent70 early70 : ℚ)
    (s : ℕ × ℕ × List String) : ℕ × ℕ × List String :=
  if has10 then
    if recent70 < early70 * (90/100) then
      (s.1 + 2, s.2.1, s.2.2 ++ ["🟢 70%筹码集中度显著收窄：主力控盘程度加深"])
    else if recent70 > early70 * (110/100) then
      (s.1, s.2.1 + 1, s.2.2 ++ ["🔴 70%筹码集中度扩大：持仓分歧加大"])
    else s
  else s

/-- The fixed rule set (`信号1`–`信号8`, in source order): takes the three
labels, the latest winner rate, the `len(df) >= 10` gate, and the two
70%-concentration window means; returns
`(accumulation_score, distribution_score, interpretations)`. -/
def chipScores (concTrend costTrend winnerTrend : String) (latestWinner : ℚ)
    (has10 : Bool) (recent70 early70 : ℚ) : ℕ × ℕ × List String :=
  (((0, 0, []) : ℕ × ℕ × List String)
  |> chipRule (concTrend = "concentrating" ∧ winnerTrend = "falling") 3 0
      "🟢 筹码集中+获利比例下降：典型的主力低位吸筹信号"
  |> chipRule (concTrend = "concentrating" ∧ costTrend = "falling") 2 0
      "🟢 筹码集中+成本下移：主力在低位收集筹码"
  |> chipRule (concTrend = "concentrating" ∧ winnerTrend = "rising") 1 0
      "🟡 筹码集中+获利比例上升：主力拉升控盘阶段"
  |> chipRule (concTrend = "dispersing" ∧ winnerTrend = "rising") 0 3
      "🔴 筹码分散+获利比例上升：主力高位派发信号"
  |> chipRule (concTrend = "dispersing" ∧ costTrend = "rising") 0 2
      "🔴 筹码分散+成本上移：高位换手活跃，警惕主力出货"
  |> chipRule (concTrend = "dispersing" ∧ winnerTrend = "falling") 1 1
      "🟡 筹码分散+获利比例下降：可能是恐慌抛售或主力洗盘"
  |> chipRule (costTrend = "falling" ∧ latestWinner < 15/100) 1 0
      "🟢 成本下移+获利比例极低：可能处于底部区域")
  |> signal8Block has10 recent70 early70

/-- The verdict resolver (`综合判断主力态度`): maps the two scores to
`(institutional_signal, institutional_confidence)`. -/
def resolveVerdict (acc dist : ℕ) : String × String :=
  if 3 ≤ acc ∧ dist * 2 < acc then
    ("accumulating", if 5 ≤ acc then "high" else "medium")
  else if dist < acc then ("accumulating", "low")
  else if 3 ≤ dist ∧ acc * 2 < dist then
    ("distributing", if 5 ≤ dist then "high" else "medium")
  else if acc < dist then ("distributing", "low")
  else ("neutral", "low")

/-! ## `_analyze_chip_trend` -/

/-- Concentration slope details (`集中度变化速率` section): computed only for
`len(df) >= 10`, over the last 20 points (or all of them). -/
def concentrationSlopeDetails (df : List ChipRow) : Option ℚ × Option String :=
  if 10 ≤ df.length then
    let series := if 20 ≤ df.length then (df.drop (df.length - 20)).map (·.conc90)
                  else df.map (·.conc90)
    let s := calcSlope series
    (some (roundTo 6 s),
     some (if s < -(1/1000) then "fast_concentrating"
           else if s < 0 then "slow_concentrating"
           else if s > 1/1000 then "fast_dispersing"
           else if s > 0 then "slow_dispersing"
           else "stable"))
  else (none, none)

/-- 70%-concentration window means for `信号8`:
`recent_70 = df["70集中度"].iloc[-5:].mean()` and
`early_70 = df["70集中度"].iloc[-15:-5].mean() if len(df) >= 15 else df["70集中度"].iloc[:5].mean()`. -/
def conc70Windows (df : List ChipRow) : ℚ × ℚ :=
  (mean ((df.drop (df.length - 5)).map (·.conc70)),
   if 15 ≤ df.length then mean (((df.drop (df.length - 15)).take 10).map (·.conc70))
   else mean ((df.take 5).map (·.conc70)))

/-- `_analyze_chip_trend`: the full multi-horizon trend record. -/
def analyzeChipTrend (df : List ChipRow) : ChipTrend :=
  if df.length < 5 then {}
  else
    let mp : MultiPeriod :=
      { short := multiPeriodEntry df 5
        medium := multiPeriodEntry df 10
        long := multiPeriodEntry df 20 }
    let recentN := min 5 df.length
    let earlyStart := max 0 (df.length - 20)
    let earlyEnd := max recentN (df.length - 10)
    if earlyEnd ≤ earlyStart then { periodDays := df.length, multiPeriod := mp }
    else
      let recent := mainRecentWindow df
      let early := mainEarlyWindow df
      let recentConc90 := mean (recent.map (·.conc90))
      let earlyConc90 := mean (early.map (·.conc90))
      let concTrend := classifyConcentration recentConc90 earlyConc90
      let recentAvgCost := mean (recent.map (·.avgCost))
      let earlyAvgCost := mean (early.map (·.avgCost))
      let costTrend := classifyCostCenter recentAvgCost earlyAvgCost
      let recentWinner := mean (recent.map (·.winnerRate))
      let earlyWinner := mean (early.map (·.winnerRate))
      let winnerTrend := classifyWinnerRate recentWinner earlyWinner
      let slopeDetails := concentrationSlopeDetails df
      let latestWinner := match df.getLast? with
        | some row => row.winnerRate
        | none => 0  -- unreachable: df.length ≥ 5 here
      let w70 := conc70Windows df
      let scores := chipScores concTrend costTrend winnerTrend latestWinner
        (decide (10 ≤ df.length)) w70.1 w70.2
      let verdict := resolveVerdict scores.1 scores.2.1
      { concentrationTrend := concTrend
        costCenterTrend := costTrend
        winnerRateTrend := winnerTrend
        periodDays := df.length
        institutionalSignal := verdict.1
        institutionalConfidence := verdict.2
        multiPeriod := mp
        details :=
          { recentConcentration90 := some (roundTo 4 recentConc90)
            earlyConcentration90 := some (roundTo 4 earlyConc90)
            recentAvgCost := some (roundTo 2 recentAvgCost)
            earlyAvgCost := some (roundTo 2 earlyAvgCost)
            recentWinnerRate := some (roundTo 4 recentWinner)
            earlyWinnerRate := some (roundTo 4 earlyWinner)
            concentrationSlope := slopeDetails.1
            concentrationSpeed := slopeDetails.2
            accumulationScore := some scores.1
            distributionScore := some scores.2.1 }
        interpretation := scores.2.2 }

/-! ## `latest` snapshot, assessment and the `analyze_chip_distribution` boundary -/

/-- The `result["latest"]` dictionary: `_safe_float`-converted fields of the
last row plus the two band widths. -/
structure LatestChip where
  date : String
  winnerRate : ℚ
  averageCost : ℚ
  cost90Low : ℚ
  cost90High : ℚ
  concentration90 : ℚ
  cost70Low : ℚ
  cost70High : ℚ
  concentration70 : ℚ
  cost90Range : ℚ
  cost70Range : ℚ
deriving DecidableEq, Repr

/-- The `assessment` dictionary built by `_assess_chip_status` (or, on the
error path, by `_empty_chip_result`); the institutional keys and the
multi-period summary are only inserted by `_assess_chip_status`. -/
structure ChipAssessment where
  chipStatus : String
  pressureLevel : String
  supportLevel : String
  signals : List String
  summary : String
  institutionalSignal : Option String := none
  institutionalConfidence : Option String := none
  institutionalInterpretation : Option (List String) := none
  multiPeriodSummary : Option MultiPeriod := none
deriving DecidableEq, Repr

/-- The top-level result shape of `analyze_chip_distribution`; `latest` and
`trend` are `{}` (here `none`) on the error path. -/
structure ChipResult where
  latest : Option LatestChip
  trend : Option ChipTrend
  assessment : ChipAssessment
  error : Option String
deriving DecidableEq, Repr

/-- `_assess_chip_status`: the combined assessment of the latest snapshot and
the trend record. -/
def assessChipStatus (latest : LatestChip) (trend : ChipTrend)
    (currentPrice : Option ℚ) : ChipAssessment :=
  let winnerRate := latest.winnerRate
  let concentration90 := latest.concentration90
  let avgCost := latest.averageCost
  -- 筹码集中度评估
  let statusPart : String × List String :=
    if concentration90 < 10/100 then ("highly_concentrated", ["筹码高度集中，主力控盘明显"])
    else if concentration90 < 20/100 then ("concentrated", ["筹码较为集中"])
    else if concentration90 > 40/100 then ("dispersed", ["筹码分散，持仓分歧较大"])
    else ("neutral", [])
  -- 获利比例评估
  let winnerPart : String × String × List String :=
    if winnerRate > 90/100 then
      ("high", "medium", ["获利比例极高(" ++ fmtFixed 1 (winnerRate * 100) ++ "%)，存在较大获利回吐压力"])
    else if winnerRate > 70/100 then
      ("medium_high", "medium", ["获利比例较高(" ++ fmtFixed 1 (winnerRate * 100) ++ "%)，注意获利盘压力"])
    else if winnerRate < 10/100 then
      ("low", "low", ["获利比例极低(" ++ fmtFixed 1 (winnerRate * 100) ++ "%)，多数筹码被套"])
    else if winnerRate < 30/100 then
      ("low", "medium", ["获利比例较低(" ++ fmtFixed 1 (winnerRate * 100) ++ "%)，套牢盘较多"])
    else ("medium", "medium", [])
  -- 当前价格与平均成本的关系 (`if current_price and avg_cost > 0`)
  let pricePart : List String × String :=
    match currentPrice with
    | none => ([], winnerPart.2.1)
    | some p =>
      if p ≠ 0 ∧ avgCost > 0 then
        let priceVsCost := (p - avgCost) / avgCost
        if priceVsCost > 15/100 then
          (["当前价格高于平均成本" ++ fmtFixed 1 (priceVsCost * 100) ++ "%，获利盘较多"], winnerPart.2.1)
        else if priceVsCost < -(15/100) then
          (["当前价格低于平均成本" ++ fmtFixed 1 (|priceVsCost| * 100) ++ "%，套牢盘压力大"], "low")
        else (["当前价格接近平均成本，多空博弈区间"], winnerPart.2.1)
      else ([], winnerPart.2.1)
  -- 趋势信号
  let concTrend := trend.concentrationTrend
  let costTrend := trend.costCenterTrend
  let trendSignals : List String :=
    (if concTrend = "concentrating" then ["筹码趋于集中，可能有主力吸筹"]
     else if concTrend = "dispersing" then ["筹码趋于分散，可能有主力派发"] else [])
    ++ (if costTrend = "rising" then ["成本中心上移，市场换手充分"]
        else if costTrend = "falling" then ["成本中心下移，持仓成本降低"] else [])
  -- 主力行为信号
  let instSignal := trend.institutionalSignal
  let instConfidence := trend.institutionalConfidence
  let instSignalCn :=
    if instSignal = "accumulating" then "主力吸筹"
    else if instSignal = "distributing" then "主力派发"
    else if instSignal = "neutral" then "主力态度不明" else "不明"
  let instConfidenceCn :=
    if instConfidence = "high" then "强"
    else if instConfidence = "medium" then "中等"
    else if instConfidence = "low" then "弱" else "弱"
  let instSignals : List String :=
    if instSignal ≠ "neutral" then
      ["主力行为研判：" ++ instSignalCn ++ "（信号强度：" ++ instConfidenceCn ++ "）"]
    else []
  let multiPeriodSummary : Option MultiPeriod :=
    if trend.multiPeriod = ({} : MultiPeriod) then none else some trend.multiPeriod
  -- 生成总结
  let statusDesc :=
    if statusPart.1 = "highly_concentrated" then "筹码高度集中"
    else if statusPart.1 = "concentrated" then "筹码较集中"
    else if statusPart.1 = "dispersed" then "筹码分散"
    else "筹码分布适中"
  let trendDesc :=
    if concTrend = "concentrating" then "筹码趋于集中"
    else if concTrend = "dispersing" then "筹码趋于分散"
    else if concTrend = "stable" then "筹码分布稳定" else ""
  let summaryParts : List String :=
    [statusDesc,
     "获利比例" ++ fmtFixed 1 (winnerRate * 100) ++ "%",
     "平均成本" ++ fmtFixed 2 avgCost ++ "元",
     trendDesc]
    ++ (if instSignal = "accumulating" then ["研判主力吸筹（" ++ instConfidenceCn ++ "信号）"]
        else if instSignal = "distributing" then ["研判主力派发（" ++ instConfidenceCn ++ "信号）"]
        else [])
  let summary := String.intercalate "，" (summaryParts.filter (· ≠ "")) ++ "。"
  { chipStatus := statusPart.1
    pressureLevel := winnerPart.1
    supportLevel := pricePart.2
    signals := statusPart.2 ++ winnerPart.2.2 ++ pricePart.1 ++ trendSignals ++ instSignals
    summary := summary
    institutionalSignal := some instSignal
    institutionalConfidence := some instConfidence
    institutionalInterpretation := some trend.interpretation
    multiPeriodSummary := multiPeriodSummary }

/-- `_empty_chip_result`: the result shape returned when the chip-distribution
fetch fails with a data-source error. -/
def emptyChipResult (errorMsg : String) : ChipResult :=
  { latest := none
    trend := none
    assessment :=
      { chipStatus := "unknown"
        pressureLevel := "unknown"
        supportLevel := "unknown"
        signals := []
        summary := "筹码数据获取失败: " ++ errorMsg }
    error := some errorMsg }

/-- `analyze_chip_distribution`: the engine boundary. The upstream fetch is an
external collaborator, passed here as an `Except`: a `DataSourceError` message
or the fetched frame. A fetch error is absorbed into `_empty_chip_result`;
only a calculation error on the success path (an empty frame, which the fetch
contract excludes) escapes as `Except.error` (`CalculationError`). -/
def analyzeChipDistribution (fetched : Except String (List ChipRow))
    (currentPrice : Option ℚ) : Except String ChipResult :=
  match fetched with
  | .error e => .ok (emptyChipResult e)
  | .ok df =>
    match df.getLast? with
    | none => .error "筹码分析计算失败"
    | some lastRow =>
      let latest : LatestChip :=
        { date := lastRow.date
          winnerRate := safeFloat lastRow.winnerRate
          averageCost := safeFloat lastRow.avgCost
          cost90Low := safeFloat lastRow.cost90Low
          cost90High := safeFloat lastRow.cost90High
          concentration90 := safeFloat lastRow.conc90
          cost70Low := safeFloat lastRow.cost70Low
          cost70High := safeFloat lastRow.cost70High
          concentration70 := safeFloat lastRow.conc70
          cost90Range := roundTo 2 (safeFloat lastRow.cost90High - safeFloat lastRow.cost90Low)
          cost70Range := roundTo 2 (safeFloat lastRow.cost70High - safeFloat lastRow.cost70Low) }
      let trend := analyzeChipTrend df
      .ok { latest := some latest
            trend := some trend
            assessment := assessChipStatus latest trend currentPrice
            error := none }

/-! ## Cross-domain signal aggregation (`analyze_stock`, step 8)

The aggregator reads the per-domain sections of the `result` dictionary; a
domain whose section is missing or empty (falsy) is `none` here. Each record
carries exactly the values the prediction step extracts (with the `.get`
defaults already applied by the enclosing dictionary lookups). -/

/-- `technical_analysis`: the trend text and `signals["overall"]`. -/
structure TechnicalIn where
  trend : String
  overallSignal : String
deriving DecidableEq, Repr

/-- `fundamental_analysis["analysis"]`. -/
structure FundamentalIn where
  profitabilityLevel : String
  growthLevel : String
  valuationLevel : String
deriving DecidableEq, Repr

/-- `fund_flow_analysis["main_inflow_5d"]`. -/
structure FundFlowIn where
  mainInflow5d : ℚ
deriving DecidableEq, Repr

/-- `lhb_analysis["analysis"]["institution_attitude"]`. -/
structure LhbIn where
  institutionAttitude : String
deriving DecidableEq, Repr

/-- `margin_analysis["analysis"]["margin_trend"]`. -/
structure MarginIn where
  marginTrend : String
deriving DecidableEq, Repr

/-- `northbound_analysis["analysis"]["direction"]`. -/
structure NorthboundIn where
  direction : String
deriving DecidableEq, Repr

/-- `block_trade_analysis["analysis"]`: average premium and record count. -/
structure BlockTradeIn where
  avgPremium : ℚ
  recordsCount : ℕ
deriving DecidableEq, Repr

/-- `shareholder_analysis["analysis"]["shareholder_trend"]`. -/
structure ShareholderIn where
  shareholderTrend : String
deriving DecidableEq, Repr

/-- `restricted_shares_analysis["analysis"]["pressure_level"]`. -/
structure RestrictedIn where
  pressureLevel : String
deriving DecidableEq, Repr

/-- `institution_analysis["analysis"]["holding_trend"]`. -/
structure InstitutionIn where
  holdingTrend : String
deriving DecidableEq, Repr

/-- The aggregator's input: the sections of `result` the prediction step
reads. `basicInfoPrice` is `basic_info["current_price"]` when `basic_info`
is present. -/
structure AnalysisInput where
  basicInfoPrice : Option ℚ := none
  technical : Option TechnicalIn := none
  fundamental : Option FundamentalIn := none
  fundFlow : Option FundFlowIn := none
  chip : Option ChipResult := none
  lhb : Option LhbIn := none
  margin : Option MarginIn := none
  northbound : Option NorthboundIn := none
  blockTrade : Option BlockTradeIn := none
  shareholder : Option ShareholderIn := none
  restrictedShares : Option RestrictedIn := none
  institution : Option InstitutionIn := none
deriving DecidableEq, Repr

/-- State threaded through the aggregation: `(trend_probability, key_factors)`. -/
abbrev AggState := ℚ × List String

/-- 技术面判断. -/
def stepTechnical (t : Option TechnicalIn) (st : AggState) : AggState :=
  match t with
  | none => st
  | some tech =>
    let st1 :=
      if strContains tech.trend "上升" then (st.1 + 2/10, st.2 ++ ["技术趋势向上"])
      else if strContains tech.trend "下降" then (st.1 - 2/10, st.2 ++ ["技术趋势向下"])
      else st
    if tech.overallSignal = "buy" ∨ tech.overallSignal = "strong_buy" then
      (st1.1 + 15/100, st1.2 ++ ["技术指标买入信号"])
    else if tech.overallSignal = "sell" ∨ tech.overallSignal = "strong_sell" then
      (st1.1 - 15/100, st1.2 ++ ["技术指标卖出信号"])
    else st1

/-- 基本面判断. -/
def stepFundamental (f : Option FundamentalIn) (st : AggState) : AggState :=
  match f with
  | none => st
  | some fund =>
    let st1 :=
      if fund.profitabilityLevel = "strong" then (st.1 + 1/10, st.2 ++ ["盈利能力强"]) else st
    let st2 :=
      if fund.growthLevel = "high" then (st1.1 + 1/10, st1.2 ++ ["成长性高"]) else st1
    if strContains fund.valuationLevel "低估值" then (st2.1 + 1/10, st2.2 ++ ["估值偏低"])
    else if strContains fund.valuationLevel "高估值" then (st2.1 - 1/10, st2.2 ++ ["估值偏高"])
    else st2

/-- 资金流向判断. -/
def stepFundFlow (f : Option FundFlowIn) (st : AggState) : AggState :=
  match f with
  | none => st
  | some flow =>
    if flow.mainInflow5d > 0 then (st.1 + 1/10, st.2 ++ ["主力资金净流入"])
    else if flow.mainInflow5d < 0 then (st.1 - 1/10, st.2 ++ ["主力资金净流出"])
    else st

/-- 筹码面判断, first if-group: `chip_status` (default "neutral"). -/
def chipStatusBlock (chip : ChipResult) (st : AggState) : AggState :=
  if chip.assessment.chipStatus = "highly_concentrated" ∨ chip.assessment.chipStatus = "concentrated" then
    (st.1 + 5/100, st.2 ++ ["筹码集中"])
  else if chip.assessment.chipStatus = "dispersed" then (st.1 - 5/100, st.2 ++ ["筹码分散"])
  else st

/-- 筹码面判断, second if-group: `concentration_trend` (default "stable"). -/
def chipConcTrendBlock (chip : ChipResult) (st : AggState) : AggState :=
  if (chip.trend.map (·.concentrationTrend)).getD "stable" = "concentrating" then
    (st.1 + 5/100, st.2 ++ ["筹码趋于集中"])
  else if (chip.trend.map (·.concentrationTrend)).getD "stable" = "dispersing" then
    (st.1 - 5/100, st.2 ++ ["筹码趋于分散"])
  else st

/-- 筹码面判断, third if-group: `winner_rate` (default 0.5). -/
def chipWinnerBlock (chip : ChipResult) (st : AggState) : AggState :=
  if (chip.latest.map (·.winnerRate)).getD (1/2) > 90/100 then
    (st.1 - 5/100, st.2 ++ ["获利盘压力大"])
  else if (chip.latest.map (·.winnerRate)).getD (1/2) < 10/100 then
    (st.1, st.2 ++ ["套牢盘较重"])
  else st

/-- 筹码面判断, fourth if-group: `institutional_signal` (default "neutral"). -/
def chipInstBlock (chip : ChipResult) (st : AggState) : AggState :=
  if (chip.trend.map (·.institutionalSignal)).getD "neutral" = "accumulating" then
    (st.1 + 5/100, st.2 ++ ["筹码分析研判主力吸筹"])
  else if (chip.trend.map (·.institutionalSignal)).getD "neutral" = "distributing" then
    (st.1 - 5/100, st.2 ++ ["筹码分析研判主力派发"])
  else st

/-- 筹码面判断: reads the chip result with the source's `.get` defaults
(`chip_status` → "neutral", `concentration_trend` → "stable",
`winner_rate` → 0.5, `institutional_signal` → "neutral"), running the four
if-groups in source order. -/
def stepChip (c : Option ChipResult) (st : AggState) : AggState :=
  match c with
  | none => st
  | some chip => chipInstBlock chip (chipWinnerBlock chip (chipConcTrendBlock chip (chipStatusBlock chip st)))

/-- 龙虎榜判断. -/
def stepLhb (l : Option LhbIn) (st : AggState) : AggState :=
  match l with
  | none => st
  | some lhb =>
    if strContains lhb.institutionAttitude "净买入" then (st.1 + 5/100, st.2 ++ ["龙虎榜机构净买入"])
    else if strContains lhb.institutionAttitude "净卖出" then (st.1 - 5/100, st.2 ++ ["龙虎榜机构净卖出"])
    else st

/-- 融资融券判断. -/
def stepMargin (m : Option MarginIn) (st : AggState) : AggState :=
  match m with
  | none => st
  | some margin =>
    if margin.marginTrend = "increasing" then (st.1 + 5/100, st.2 ++ ["融资余额增加（杠杆看多）"])
    else if margin.marginTrend = "decreasing" then (st.1 - 5/100, st.2 ++ ["融资余额减少（杠杆看空）"])
    else st

/-- 北向资金判断. -/
def stepNorthbound (n : Option NorthboundIn) (st : AggState) : AggState :=
  match n with
  | none => st
  | some nb =>
    if nb.direction = "inflow" then (st.1 + 5/100, st.2 ++ ["北向资金净流入"])
    else if nb.direction = "outflow" then (st.1 - 5/100, st.2 ++ ["北向资金净流出"])
    else st

/-- 大宗交易判断. -/
def stepBlockTrade (b : Option BlockTradeIn) (st : AggState) : AggState :=
  match b with
  | none => st
  | some bt =>
    if bt.recordsCount > 0 then
      if bt.avgPremium > 0 then (st.1 + 3/100, st.2 ++ ["大宗交易溢价成交"])
      else if bt.avgPremium < -5 then (st.1 - 3/100, st.2 ++ ["大宗交易大幅折价"])
      else st
    else st

/-- 股东人数判断. -/
def stepShareholder (s : Option ShareholderIn) (st : AggState) : AggState :=
  match s with
  | none => st
  | some sh =>
    if sh.shareholderTrend = "decreasing" then (st.1 + 5/100, st.2 ++ ["股东人数减少（筹码集中）"])
    else if sh.shareholderTrend = "increasing" then (st.1 - 3/100, st.2 ++ ["股东人数增加（筹码分散）"])
    else st

/-- 限售解禁判断. -/
def stepRestricted (r : Option RestrictedIn) (st : AggState) : AggState :=
  match r with
  | none => st
  | some rs =>
    if rs.pressureLevel = "high" then (st.1 - 5/100, st.2 ++ ["近期有大额限售解禁"])
    else if rs.pressureLevel = "medium" then (st.1 - 2/100, st.2 ++ ["近期有限售解禁"])
    else st

/-- 机构持仓判断. -/
def stepInstitution (i : Option InstitutionIn) (st : AggState) : AggState :=
  match i with
  | none => st
  | some inst =>
    if inst.holdingTrend = "increasing" then (st.1 + 5/100, st.2 ++ ["机构持仓增加"])
    else if inst.holdingTrend = "decreasing" then (st.1 - 3/100, st.2 ++ ["机构持仓减少"])
    else st

/-- The sequential aggregation: starts from `trend_probability = 0.5` and
`key_factors = []` and runs every domain block in source order. -/
def aggregateState (inp : AnalysisInput) : AggState :=
  ((1/2, []) : AggState)
  |> stepTechnical inp.technical
  |> stepFundamental inp.fundamental
  |> stepFundFlow inp.fundFlow
  |> stepChip inp.chip
  |> stepLhb inp.lhb
  |> stepMargin inp.margin
  |> stepNorthbound inp.northbound
  |> stepBlockTrade inp.blockTrade
  |> stepShareholder inp.shareholder
  |> stepRestricted inp.restrictedShares
  |> stepInstitution inp.institution

/-- The unrounded aggregated probability (`trend_probability`). -/
def trendProbability (inp : AnalysisInput) : ℚ := (aggregateState inp).1

/-- The accumulated key-factor list (before the `["综合分析"]` fallback). -/
def keyFactors (inp : AnalysisInput) : List String := (aggregateState inp).2

/-- 确定趋势方向: the strict cut points on the aggregated probability. -/
def classifyTrend (p : ℚ) : String :=
  if p > 6/10 then "up"
  else if p < 4/10 then "down"
  else "sideways"

/-- `current_price`: `0` unless `basic_info` is present. -/
def currentPriceOf (inp : AnalysisInput) : ℚ := inp.basicInfoPrice.getD 0

/-- 计算目标价格区间: `(target_price_high, target_price_low)` from the
classification and the current price; omitted unless the price is positive. -/
def priceTargets (trend : String) (price : ℚ) : Option ℚ × Option ℚ :=
  if price > 0 then
    if trend = "up" then
      (some (roundTo 2 (price * (115/100))), some (roundTo 2 (price * (105/100))))
    else if trend = "down" then
      (some (roundTo 2 (price * (98/100))), some (roundTo 2 (price * (85/100))))
    else
      (some (roundTo 2 (price * (108/100))), some (roundTo 2 (price * (95/100))))
  else (none, none)

/-- The `prediction` record (the structurally contracted fields). -/
structure Prediction where
  trend : String
  probability : ℚ
  targetPriceHigh : Option ℚ
  targetPriceLow : Option ℚ
  keyFactors : List String
deriving DecidableEq, Repr

/-- Step 8 of `analyze_stock`: build the prediction record. -/
def predictionOf (inp : AnalysisInput) : Prediction :=
  let p := trendProbability inp
  let predictedTrend := classifyTrend p
  let price := currentPriceOf inp
  let targets := priceTargets predictedTrend price
  { trend := predictedTrend
    probability := roundTo 2 p
    targetPriceHigh := targets.1
    targetPriceLow := targets.2
    keyFactors := if keyFactors inp = [] then ["综合分析"] else keyFactors inp }

/-! ## Per-domain nudges and factor lists (for the aggregation theorems) -/

/-- Nudge contributed by the technical domain. -/
def technicalNudge (t : Option TechnicalIn) : ℚ :=
  match t with
  | none => 0
  | some tech =>
    (if strContains tech.trend "上升" then 2/10
     else if strContains tech.trend "下降" then -(2/10) else 0)
    + (if tech.overallSignal = "buy" ∨ tech.overallSignal = "strong_buy" then 15/100
       else if tech.overallSignal = "sell" ∨ tech.overallSignal = "strong_sell" then -(15/100) else 0)

/-- Key factors contributed by the technical domain. -/
def technicalFactors (t : Option TechnicalIn) : List String :=
  match t with
  | none => []
  | some tech =>
    (if strContains tech.trend "上升" then ["技术趋势向上"]
     else if strContains tech.trend "下降" then ["技术趋势向下"] else [])
    ++ (if tech.overallSignal = "buy" ∨ tech.overallSignal = "strong_buy" then ["技术指标买入信号"]
        else if tech.overallSignal = "sell" ∨ tech.overallSignal = "strong_sell" then ["技术指标卖出信号"]
        else [])

/-- Nudge contributed by the fundamental domain. -/
def fundamentalNudge (f : Option FundamentalIn) : ℚ :=
  match f with
  | none => 0
  | some fund =>
    (if fund.profitabilityLevel = "strong" then 1/10 else 0)
    + (if fund.growthLevel = "high" then 1/10 else 0)
    + (if strContains fund.valuationLevel "低估值" then 1/10
       else if strContains fund.valuationLevel "高估值" then -(1/10) else 0)

/-- Key factors contributed by the fundamental domain. -/
def fundamentalFactors (f : Option FundamentalIn) : List String :=
  match f with
  | none => []
  | some fund =>
    (if fund.profitabilityLevel = "strong" then ["盈利能力强"] else [])
    ++ (if fund.growthLevel = "high" then ["成长性高"] else [])
    ++ (if strContains fund.valuationLevel "低估值" then ["估值偏低"]
        else if strContains fund.valuationLevel "高估值" then ["估值偏高"] else [])

/-- Nudge contributed by the capital-flow domain. -/
def fundFlowNudge (f : Option FundFlowIn) : ℚ :=
  match f with
  | none => 0
  | some flow =>
    if flow.mainInflow5d > 0 then 1/10 else if flow.mainInflow5d < 0 then -(1/10) else 0

/-- Key factors contributed by the capital-flow domain. -/
def fundFlowFactors (f : Option FundFlowIn) : List String :=
  match f with
  | none => []
  | some flow =>
    if flow.mainInflow5d > 0 then ["主力资金净流入"]
    else if flow.mainInflow5d < 0 then ["主力资金净流出"] else []

/-- Nudge contributed by the chip domain. -/
def chipNudge (c : Option ChipResult) : ℚ :=
  match c with
  | none => 0
  | some chip =>
    (if chip.assessment.chipStatus = "highly_concentrated" ∨ chip.assessment.chipStatus = "concentrated"
     then 5/100 else if chip.assessment.chipStatus = "dispersed" then -(5/100) else 0)
    + (if (chip.trend.map (·.concentrationTrend)).getD "stable" = "concentrating" then 5/100
       else if (chip.trend.map (·.concentrationTrend)).getD "stable" = "dispersing" then -(5/100) else 0)
    + (if (chip.latest.map (·.winnerRate)).getD (1/2) > 90/100 then -(5/100) else 0)
    + (if (chip.trend.map (·.institutionalSignal)).getD "neutral" = "accumulating" then 5/100
       else if (chip.trend.map (·.institutionalSignal)).getD "neutral" = "distributing" then -(5/100) else 0)

/-- Key factors contributed by the chip domain. -/
def chipFactors (c : Option ChipResult) : List String :=
  match c with
  | none => []
  | some chip =>
    (if chip.assessment.chipStatus = "highly_concentrated" ∨ chip.assessment.chipStatus = "concentrated"
     then ["筹码集中"] else if chip.assessment.chipStatus = "dispersed" then ["筹码分散"] else [])
    ++ (if (chip.trend.map (·.concentrationTrend)).getD "stable" = "concentrating" then ["筹码趋于集中"]
        else if (chip.trend.map (·.concentrationTrend)).getD "stable" = "dispersing" then ["筹码趋于分散"]
        else [])
    ++ (if (chip.latest.map (·.winnerRate)).getD (1/2) > 90/100 then ["获利盘压力大"]
        else if (chip.latest.map (·.winnerRate)).getD (1/2) < 10/100 then ["套牢盘较重"] else [])
    ++ (if (chip.trend.map (·.institutionalSignal)).getD "neutral" = "accumulating" then ["筹码分析研判主力吸筹"]
        else if (chip.trend.map (·.institutionalSignal)).getD "neutral" = "distributing" then ["筹码分析研判主力派发"]
        else [])

/-- Nudge contributed by the dragon-tiger list (LHB) domain. -/
def lhbNudge (l : Option LhbIn) : ℚ :=
  match l with
  | none => 0
  | some lhb =>
    if strContains lhb.institutionAttitude "净买入" then 5/100
    else if strContains lhb.institutionAttitude "净卖出" then -(5/100) else 0

/-- Key factors contributed by the LHB domain. -/
def lhbFactors (l : Option LhbIn) : List String :=
  match l with
  | none => []
  | some lhb =>
    if strContains lhb.institutionAttitude "净买入" then ["龙虎榜机构净买入"]
    else if strContains lhb.institutionAttitude "净卖出" then ["龙虎榜机构净卖出"] else []

/-- Nudge contributed by the margin domain. -/
def marginNudge (m : Option MarginIn) : ℚ :=
  match m with
  | none => 0
  | some margin =>
    if margin.marginTrend = "increasing" then 5/100
    else if margin.marginTrend = "decreasing" then -(5/100) else 0

/-- Key factors contributed by the margin domain. -/
def marginFactors (m : Option MarginIn) : List String :=
  match m with
  | none => []
  | some margin =>
    if margin.marginTrend = "increasing" then ["融资余额增加（杠杆看多）"]
    else if margin.marginTrend = "decreasing" then ["融资余额减少（杠杆看空）"] else []

/-- Nudge contributed by the northbound domain. -/
def northboundNudge (n : Option NorthboundIn) : ℚ :=
  match n with
  | none => 0
  | some nb =>
    if nb.direction = "inflow" then 5/100
    else if nb.direction = "outflow" then -(5/100) else 0

/-- Key factors contributed by the northbound domain. -/
def northboundFactors (n : Option NorthboundIn) : List String :=
  match n with
  | none => []
  | some nb =>
    if nb.direction = "inflow" then ["北向资金净流入"]
    else if nb.direction = "outflow" then ["北向资金净流出"] else []

/-- Nudge contributed by the block-trade domain. -/
def blockTradeNudge (b : Option BlockTradeIn) : ℚ :=
  match b with
  | none => 0
  | some bt =>
    if bt.recordsCount > 0 then
      if bt.avgPremium > 0 then 3/100
      else if bt.avgPremium < -5 then -(3/100) else 0
    else 0

/-- Key factors contributed by the block-trade domain. -/
def blockTradeFactors (b : Option BlockTradeIn) : List String :=
  match b with
  | none => []
  | some bt =>
    if bt.recordsCount > 0 then
      if bt.avgPremium > 0 then ["大宗交易溢价成交"]
      else if bt.avgPremium < -5 then ["大宗交易大幅折价"] else []
    else []

/-- Nudge contributed by the shareholder-count domain. -/
def shareholderNudge (s : Option ShareholderIn) : ℚ :=
  match s with
  | none => 0
  | some sh =>
    if sh.shareholderTrend = "decreasing" then 5/100
    else if sh.shareholderTrend = "increasing" then -(3/100) else 0

/-- Key factors contributed by the shareholder-count domain. -/
def shareholderFactors (s : Option ShareholderIn) : List String :=
  match s with
  | none => []
  | some sh =>
    if sh.shareholderTrend = "decreasing" then ["股东人数减少（筹码集中）"]
    else if sh.shareholderTrend = "increasing" then ["股东人数增加（筹码分散）"] else []

/-- Nudge contributed by the lock-up release domain. -/
def restrictedNudge (r : Option RestrictedIn) : ℚ :=
  match r with
  | none => 0
  | some rs =>
    if rs.pressureLevel = "high" then -(5/100)
    else if rs.pressureLevel = "medium" then -(2/100) else 0

/-- Key factors contributed by the lock-up release domain. -/
def restrictedFactors (r : Option RestrictedIn) : List String :=
  match r with
  | none => []
  | some rs =>
    if rs.pressureLevel = "high" then ["近期有大额限售解禁"]
    else if rs.pressureLevel = "medium" then ["近期有限售解禁"] else []

/-- Nudge contributed by the institutional-holding domain. -/
def institutionNudge (i : Option InstitutionIn) : ℚ :=
  match i with
  | none => 0
  | some inst =>
    if inst.holdingTrend = "increasing" then 5/100
    else if inst.holdingTrend = "decreasing" then -(3/100) else 0

/-- Key factors contributed by the institutional-holding domain. -/
def institutionFactors (i : Option InstitutionIn) : List String :=
  match i with
  | none => []
  | some inst =>
    if inst.holdingTrend = "increasing" then ["机构持仓增加"]
    else if inst.holdingTrend = "decreasing" then ["机构持仓减少"] else []

/-- The sum of all fired domain nudges. -/
def totalNudge (inp : AnalysisInput) : ℚ :=
  technicalNudge inp.technical + fundamentalNudge inp.fundamental
  + fundFlowNudge inp.fundFlow + chipNudge inp.chip
  + lhbNudge inp.lhb + marginNudge inp.margin + northboundNudge inp.northbound
  + blockTradeNudge inp.blockTrade + shareholderNudge inp.shareholder
  + restrictedNudge inp.restrictedShares + institutionNudge inp.institution

/-- The domains feeding the aggregator. -/
inductive Domain
  | technical | fundamental | fundFlow | chip | lhb | margin
  | northbound | blockTrade | shareholder | restrictedShares | institution
deriving DecidableEq, Repr

/-- Remove one domain's analysis record from the input. -/
def clearDomain (d : Domain) (inp : AnalysisInput) : AnalysisInput :=
  match d with
  | .technical => { inp with technical := none }
  | .fundamental => { inp with fundamental := none }
  | .fundFlow => { inp with fundFlow := none }
  | .chip => { inp with chip := none }
  | .lhb => { inp with lhb := none }
  | .margin => { inp with margin := none }
  | .northbound => { inp with northbound := none }
  | .blockTrade => { inp with blockTrade := none }
  | .shareholder => { inp with shareholder := none }
  | .restrictedShares => { inp with restrictedShares := none }
  | .institution => { inp with institution := none }

/-- The nudge of one named domain on a given input. -/
def domainNudge (d : Domain) (inp : AnalysisInput) : ℚ :=
  match d with
  | .technical => technicalNudge inp.technical
  | .fundamental => fundamentalNudge inp.fundamental
  | .fundFlow => fundFlowNudge inp.fundFlow
  | .chip => chipNudge inp.chip
  | .lhb => lhbNudge inp.lhb
  | .margin => marginNudge inp.margin
  | .northbound => northboundNudge inp.northbound
  | .blockTrade => blockTradeNudge inp.blockTrade
  | .shareholder => shareholderNudge inp.shareholder
  | .restrictedShares => restrictedNudge inp.restrictedShares
  | .institution => institutionNudge inp.institution

/-- The key-factor entries of one named domain on a given input. -/
def domainFactors (d : Domain) (inp : AnalysisInput) : List String :=
  match d with
  | .technical => technicalFactors inp.technical
  | .fundamental => fundamentalFactors inp.fundamental
  | .fundFlow => fundFlowFactors inp.fundFlow
  | .chip => chipFactors inp.chip
  | .lhb => lhbFactors inp.lhb
  | .margin => marginFactors inp.margin
  | .northbound => northboundFactors inp.northbound
  | .blockTrade => blockTradeFactors inp.blockTrade
  | .shareholder => shareholderFactors inp.shareholder
  | .restrictedShares => restrictedFactors inp.restrictedShares
  | .institution => institutionFactors inp.institution

/-! ## Example inputs used by witnesses and counterexamples -/

/-- A chip row with the four numeric fields the trend analysis reads. -/
def mkRow (winner conc90 conc70 cost : ℚ) : ChipRow :=
  { date := "", winnerRate := winner, avgCost := cost, cost90Low := 0, cost90High := 0
    conc90 := conc90, cost70Low := 0, cost70High := 0, conc70 := conc70 }

/-- A three-row series (shorter than the 5-point minimum). -/
def exDf3 : List ChipRow :=
  [mkRow (1/2) (3/10) (15/100) 10, mkRow (1/2) (3/10) (15/100) 10, mkRow (1/2) (3/10) (15/100) 10]

/-- A 12-row series: enough history for the short and medium horizons. -/
def exDf12 : List ChipRow :=
  List.replicate 7 (mkRow (55/100) (12/100) (8/100) 10)
  ++ List.replicate 5 (mkRow (30/100) (8/100) (6/100) 9)

/-- A 10-row series whose early window's 90% concentration mean is `0` while
the recent window's mean is positive. -/
def exDfZeroEarly : List ChipRow :=
  List.replicate 5 (mkRow (1/2) 0 (1/10) 10)
  ++ List.replicate 5 (mkRow (1/2) (1/2) (1/10) 10)

/-- An aggregation input with only a technical-trend record and a quote. -/
def exInp : AnalysisInput :=
  { basicInfoPrice := some 10
    technical := some { trend := "上升趋势", overallSignal := "neutral" } }

/-! ## Aggregation step lemmas -/

/-- Each technical block run adds the technical nudge and factors. -/
theorem stepTechnical_eq (t : Option TechnicalIn) (st : AggState) :
    stepTechnical t st = (st.1 + technicalNudge t, st.2 ++ technicalFactors t) := by
  cases t with
  | none => simp [stepTechnical, technicalNudge, technicalFactors]
  | some tech =>
    simp only [stepTechnical, technicalNudge, technicalFactors]
    split_ifs <;> simp [Prod.mk.injEq, List.append_assoc] <;> ring

/-- Each fundamental block run adds the fundamental nudge and factors. -/
theorem stepFundamental_eq (f : Option FundamentalIn) (st : AggState) :
    stepFundamental f st = (st.1 + fundamentalNudge f, st.2 ++ fundamentalFactors f) := by
  cases f with
  | none => simp [stepFundamental, fundamentalNudge, fundamentalFactors]
  | some fund =>
    simp only [stepFundamental, fundamentalNudge, fundamentalFactors]
    split_ifs <;> simp [Prod.mk.injEq, List.append_assoc] <;> ring

/-- Each capital-flow block run adds the capital-flow nudge and factors. -/
theorem stepFundFlow_eq (f : Option FundFlowIn) (st : AggState) :
    stepFundFlow f st = (st.1 + fundFlowNudge f, st.2 ++ fundFlowFactors f) := by
  cases f with
  | none => simp [stepFundFlow, fundFlowNudge, fundFlowFactors]
  | some flow =>
    simp only [stepFundFlow, fundFlowNudge, fundFlowFactors]
    split_ifs <;> simp [Prod.mk.injEq, List.append_assoc] <;> ring

/-- Each chip block run adds the chip nudge and factors. -/
theorem stepChip_eq (c : Option ChipResult) (st : AggState) :
    stepChip c st = (st.1 + chipNudge c, st.2 ++ chipFactors c) := by
  cases c with
  | none => simp [stepChip, chipNudge, chipFactors]
  | some chip =>
  have hstatus : ∀ st' : AggState, chipStatusBlock chip st' =
      (st'.1 + (if chip.assessment.chipStatus = "highly_concentrated" ∨ chip.assessment.chipStatus = "concentrated"
                then 5/100 else if chip.assessment.chipStatus = "dispersed" then -(5/100) else 0),
       st'.2 ++ (if chip.assessment.chipStatus = "highly_concentrated" ∨ chip.assessment.chipStatus = "concentrated"
                 then ["筹码集中"] else if chip.assessment.chipStatus = "dispersed" then ["筹码分散"] else [])) := by
    intro st'
    simp only [chipStatusBlock]
    split_ifs <;> simp <;> ring
  have hconc : ∀ st' : AggState, chipConcTrendBlock chip st' =
      (st'.1 + (if (chip.trend.map (·.concentrationTrend)).getD "stable" = "concentrating" then 5/100
                else if (chip.trend.map (·.concentrationTrend)).getD "stable" = "dispersing" then -(5/100) else 0),
       st'.2 ++ (if (chip.trend.map (·.concentrationTrend)).getD "stable" = "concentrating" then ["筹码趋于集中"]
                 else if (chip.trend.map (·.concentrationTrend)).getD "stable" = "dispersing" then ["筹码趋于分散"]
                 else [])) := by
    intro st'
    simp only [chipConcTrendBlock]
    split_ifs <;> simp <;> ring
  have hwinner : ∀ st' : AggState, chipWinnerBlock chip st' =
      (st'.1 + (if (chip.latest.map (·.winnerRate)).getD (1/2) > 90/100 then -(5/100) else 0),
       st'.2 ++ (if (chip.latest.map (·.winnerRate)).getD (1/2) > 90/100 then ["获利盘压力大"]
                 else if (chip.latest.map (·.winnerRate)).getD (1/2) < 10/100 then ["套牢盘较重"] else [])) := by
    intro st'
    simp only [chipWinnerBlock]
    split_ifs <;> simp <;> ring
  have hinst : ∀ st' : AggState, chipInstBlock chip st' =
      (st'.1 + (if (chip.trend.map (·.institutionalSignal)).getD "neutral" = "accumulating" then 5/100
                else if (chip.trend.map (·.institutionalSignal)).getD "neutral" = "distributing" then -(5/100) else 0),
       st'.2 ++ (if (chip.trend.map (·.institutionalSignal)).getD "neutral" = "accumulating" then ["筹码分析研判主力吸筹"]
                 else if (chip.trend.map (·.institutionalSignal)).getD "neutral" = "distributing" then ["筹码分析研判主力派发"]
                 else [])) := by
    intro st'
    simp only [chipInstBlock]
    split_ifs <;> simp <;> ring
  simp only [stepChip, hstatus, hconc, hwinner, hinst, chipNudge, chipFactors]
  simp only [Prod.mk.injEq]
  constructor
  · ring
  · simp [List.append_assoc]

/-- Each LHB block run adds the LHB nudge and factors. -/
theorem stepLhb_eq (l : Option LhbIn) (st : AggState) :
    stepLhb l st = (st.1 + lhbNudge l, st.2 ++ lhbFactors l) := by
  cases l with
  | none => simp [stepLhb, lhbNudge, lhbFactors]
  | some lhb =>
    simp only [stepLhb, lhbNudge, lhbFactors]
    split_ifs <;> simp [Prod.mk.injEq, List.append_assoc] <;> ring

/-- Each margin block run adds the margin nudge and factors. -/
theorem stepMargin_eq (m : Option MarginIn) (st : AggState) :
    stepMargin m st = (st.1 + marginNudge m, st.2 ++ marginFactors m) := by
  cases m with
  | none => simp [stepMargin, marginNudge, marginFactors]
  | some margin =>
    simp only [stepMargin, marginNudge, marginFactors]
    split_ifs <;> simp [Prod.mk.injEq, List.append_assoc] <;> ring

/-- Each northbound block run adds the northbound nudge and factors. -/
theorem stepNorthbound_eq (n : Option NorthboundIn) (st : AggState) :
    stepNorthbound n st = (st.1 + northboundNudge n, st.2 ++ northboundFactors n) := by
  cases n with
  | none => simp [stepNorthbound, northboundNudge, northboundFactors]
  | some nb =>
    simp only [stepNorthbound, northboundNudge, northboundFactors]
    split_ifs <;> simp [Prod.mk.injEq, List.append_assoc] <;> ring

/-- Each block-trade block run adds the block-trade nudge and factors. -/
theorem stepBlockTrade_eq (b : Option BlockTradeIn) (st : AggState) :
    stepBlockTrade b st = (st.1 + blockTradeNudge b, st.2 ++ blockTradeFactors b) := by
  cases b with
  | none => simp [stepBlockTrade, blockTradeNudge, blockTradeFactors]
  | some bt =>
    simp only [stepBlockTrade, blockTradeNudge, blockTradeFactors]
    split_ifs <;> simp [Prod.mk.injEq, List.append_assoc] <;> ring

/-- Each shareholder block run adds the shareholder nudge and factors. -/
theorem stepShareholder_eq (s : Option ShareholderIn) (st : AggState) :
    stepShareholder s st = (st.1 + shareholderNudge s, st.2 ++ shareholderFactors s) := by
  cases s with
  | none => simp [stepShareholder, shareholderNudge, shareholderFactors]
  | some sh =>
    simp only [stepShareholder, shareholderNudge, shareholderFactors]
    split_ifs <;> simp [Prod.mk.injEq, List.append_assoc] <;> ring

/-- Each lock-up block run adds the lock-up nudge and factors. -/
theorem stepRestricted_eq (r : Option RestrictedIn) (st : AggState) :
    stepRestricted r st = (st.1 + restrictedNudge r, st.2 ++ restrictedFactors r) := by
  cases r with
  | none => simp [stepRestricted, restrictedNudge, restrictedFactors]
  | some rs =>
    simp only [stepRestricted, restrictedNudge, restrictedFactors]
    split_ifs <;> simp [Prod.mk.injEq, List.append_assoc] <;> ring

/-- Each institutional-holding block run adds its nudge and factors. -/
theorem stepInstitution_eq (i : Option InstitutionIn) (st : AggState) :
    stepInstitution i st = (st.1 + institutionNudge i, st.2 ++ institutionFactors i) := by
  cases i with
  | none => simp [stepInstitution, institutionNudge, institutionFactors]
  | some inst =>
    simp only [stepInstitution, institutionNudge, institutionFactors]
    split_ifs <;> simp [Prod.mk.injEq, List.append_assoc] <;> ring

/-- The sequentially accumulated probability is the baseline plus the sum of
the per-domain nudges. -/
theorem trendProbability_eq (inp : AnalysisInput) :
    trendProbability inp = 1/2 + totalNudge inp := by
  simp only [trendProbability, aggregateState, Function.comp]
  simp only [stepTechnical_eq, stepFundamental_eq, stepFundFlow_eq, stepChip_eq,
    stepLhb_eq, stepMargin_eq, stepNorthbound_eq, stepBlockTrade_eq,
    stepShareholder_eq, stepRestricted_eq, stepInstitution_eq]
  simp only [totalNudge]
  ring

/-- The accumulated key factors are the concatenation of the per-domain
factor lists, in source order. -/
theorem keyFactors_eq (inp : AnalysisInput) :
    keyFactors inp =
      technicalFactors inp.technical ++ fundamentalFactors inp.fundamental
      ++ fundFlowFactors inp.fundFlow ++ chipFactors inp.chip
      ++ lhbFactors inp.lhb ++ marginFactors inp.margin
      ++ northboundFactors inp.northbound ++ blockTradeFactors inp.blockTrade
      ++ shareholderFactors inp.shareholder ++ restrictedFactors inp.restrictedShares
      ++ institutionFactors inp.institution := by
  simp only [keyFactors, aggregateState, Function.comp]
  simp only [stepTechnical_eq, stepFundamental_eq, stepFundFlow_eq, stepChip_eq,
    stepLhb_eq, stepMargin_eq, stepNorthbound_eq, stepBlockTrade_eq,
    stepShareholder_eq, stepRestricted_eq, stepInstitution_eq]
  simp [List.append_assoc]

/-! ## Scoring-rule lemmas -/

/-- Each rule application adds its weights and appends its message when its
condition holds, and is the identity otherwise. -/
theorem chipRule_eq (cond : Prop) [Decidable cond] (accW distW : ℕ) (msg : String)
    (s : ℕ × ℕ × List String) :
    chipRule cond accW distW msg s =
      (s.1 + (if cond then accW else 0), s.2.1 + (if cond then distW else 0),
       s.2.2 ++ (if cond then [msg] else [])) := by
  unfold chipRule
  split_ifs <;> simp

/-- `信号8` adds `2` to the accumulation score exactly on narrowing, `1` to
the distribution score exactly on widening. -/
theorem signal8Block_eq (has10 : Bool) (r70 e70 : ℚ) (s : ℕ × ℕ × List String) :
    signal8Block has10 r70 e70 s =
      (s.1 + (if has10 = true ∧ r70 < e70 * (90/100) then 2 else 0),
       s.2.1 + (if has10 = true ∧ ¬ r70 < e70 * (90/100) ∧ e70 * (110/100) < r70 then 1 else 0),
       s.2.2 ++ (if has10 = true ∧ r70 < e70 * (90/100)
                 then ["🟢 70%筹码集中度显著收窄：主力控盘程度加深"]
                 else if has10 = true ∧ ¬ r70 < e70 * (90/100) ∧ e70 * (110/100) < r70
                 then ["🔴 70%筹码集中度扩大：持仓分歧加大"] else [])) := by
  unfold signal8Block
  cases has10 <;> split_ifs <;> simp_all

/-- `classifyTrend` characterizations for the three labels. -/
theorem classifyTrend_eq_up (p : ℚ) : classifyTrend p = "up" ↔ 6/10 < p := by
  unfold classifyTrend
  split_ifs with h1 h2
  · exact ⟨fun _ => h1, fun _ => rfl⟩
  · exact ⟨fun h => absurd h (by decide), fun h => absurd h h1⟩
  · exact ⟨fun h => absurd h (by decide), fun h => absurd h h1⟩

/-- `classifyTrend` is "down" exactly below the strict 0.4 cut. -/
theorem classifyTrend_eq_down (p : ℚ) : classifyTrend p = "down" ↔ p < 4/10 := by
  unfold classifyTrend
  split_ifs with h1 h2
  · exact ⟨fun h => absurd h (by decide), fun h => absurd h (by linarith)⟩
  · exact ⟨fun _ => h2, fun _ => rfl⟩
  · exact ⟨fun h => absurd h (by decide), fun h => absurd h h2⟩

/-- `classifyTrend` is "sideways" exactly on the closed band `[0.4, 0.6]`. -/
theorem classifyTrend_eq_sideways (p : ℚ) :
    classifyTrend p = "sideways" ↔ 4/10 ≤ p ∧ p ≤ 6/10 := by
  unfold classifyTrend
  split_ifs with h1 h2
  · refine ⟨fun h => absurd h (by decide), fun h => ?_⟩
    exact absurd h1 (by push_neg; exact h.2)
  · refine ⟨fun h => absurd h (by decide), fun h => ?_⟩
    exact absurd h2 (by push_neg; exact h.1)
  · exact ⟨fun _ => ⟨le_of_not_lt h2, le_of_not_lt h1⟩, fun _ => rfl⟩

/-- A string contains any of its suffixes, in particular its final append. -/
theorem strContains_append_right (a b : String) : strContains (a ++ b) b = true := by
  unfold strContains
  rw [List.any_eq_true]
  refine ⟨b.toList, ?_, ?_⟩
  · rw [List.mem_tails]
    have : (a ++ b).toList = a.toList ++ b.toList := by
      simp [String.toList]
    rw [this]
    exact List.suffix_append a.toList b.toList
  · have hrefl : ∀ l : List Char, l.isPrefixOf l = true := by
      intro l
      induction l with
      | nil => rfl
      | cons a t ih => simp [List.isPrefixOf, ih]
    exact hrefl _

/-- When the 5-point minimum is met, the main-trend early slice is non-trivial
(`early_end > early_start`), so the three labels come from the classifiers
applied to the window means, and `period_days` is the series length. -/
theorem analyzeChipTrend_labels (df : List ChipRow) (h5 : 5 ≤ df.length) :
    (analyzeChipTrend df).concentrationTrend
      = classifyConcentration (mean ((mainRecentWindow df).map (·.conc90)))
          (mean ((mainEarlyWindow df).map (·.conc90)))
    ∧ (analyzeChipTrend df).costCenterTrend
      = classifyCostCenter (mean ((mainRecentWindow df).map (·.avgCost)))
          (mean ((mainEarlyWindow df).map (·.avgCost)))
    ∧ (analyzeChipTrend df).winnerRateTrend
      = classifyWinnerRate (mean ((mainRecentWindow df).map (·.winnerRate)))
          (mean ((mainEarlyWindow df).map (·.winnerRate)))
    ∧ (analyzeChipTrend df).periodDays = df.length := by
  have hlt : ¬ df.length < 5 := by omega
  have hee : ¬ max (min 5 df.length) (df.length - 10) ≤ max 0 (df.length - 20) := by omega
  simp only [analyzeChipTrend, if_neg hlt, if_neg hee]
  exact ⟨trivial, trivial, trivial, trivial⟩

/-- The `multi_period` dictionary of the trend record always consists of the
three per-horizon entries (each possibly omitted). -/
theorem analyzeChipTrend_multiPeriod (df : List ChipRow) :
    (analyzeChipTrend df).multiPeriod =
      { short := multiPeriodEntry df 5
        medium := multiPeriodEntry df 10
        long := multiPeriodEntry df 20 } := by
  by_cases h : df.length < 5
  · have h5 : df.length < 5 + 5 := by omega
    have h10 : df.length < 10 + 5 := by omega
    have h20 : df.length < 20 + 5 := by omega
    simp only [analyzeChipTrend, if_pos h, multiPeriodEntry, if_pos h5, if_pos h10, if_pos h20]
  · have hee : ¬ max (min 5 df.length) (df.length - 10) ≤ max 0 (df.length - 20) := by omega
    simp only [analyzeChipTrend, if_neg h, if_neg hee]

/-! ## Claim theorems -/

/-- C1: for every aggregation input the prediction probability is the neutral
baseline `0.5` plus the sum of the fired domain nudges, the prediction's
trend label is the classification of that (unrounded) probability, and the
classification uses the strict cut points `> 0.6` (up) and `< 0.4` (down),
with everything else — including exactly `0.6` — classified as sideways. -/
theorem c1_probability_baseline_and_strict_cutpoints :
    (∀ inp : AnalysisInput,
       trendProbability inp = 1/2 + totalNudge inp
       ∧ (predictionOf inp).trend = classifyTrend (trendProbability inp))
    ∧ (∀ p : ℚ,
       (classifyTrend p = "up" ↔ 6/10 < p)
       ∧ (classifyTrend p = "down" ↔ p < 4/10)
       ∧ (classifyTrend p = "sideways" ↔ 4/10 ≤ p ∧ p ≤ 6/10))
    ∧ classifyTrend (6/10) = "sideways" := by
  refine ⟨fun inp => ⟨trendProbability_eq inp, rfl⟩,
    fun p => ⟨classifyTrend_eq_up p, classifyTrend_eq_down p, classifyTrend_eq_sideways p⟩,
    (classifyTrend_eq_sideways (6/10)).mpr (by norm_num)⟩

/-- C2: the behavior verdict resolver checks, in priority order:
accumulation ≥ 3 and more than twice distribution (confidence high iff ≥ 5,
else medium), then plain accumulation majority (low), then the symmetric
distribution mirror, and otherwise neutral/low; in particular `(5, 1)`
resolves to accumulating/high and the tie `(2, 2)` to neutral/low. -/
theorem c2_verdict_resolver_priority (a d : ℕ) :
    resolveVerdict a d =
      (if 3 ≤ a ∧ 2 * d < a then ("accumulating", if 5 ≤ a then "high" else "medium")
       else if d < a then ("accumulating", "low")
       else if 3 ≤ d ∧ 2 * a < d then ("distributing", if 5 ≤ d then "high" else "medium")
       else if a < d then ("distributing", "low")
       else ("neutral", "low"))
    ∧ resolveVerdict 5 1 = ("accumulating", "high")
    ∧ resolveVerdict 2 2 = ("neutral", "low") := by
  refine ⟨?_, by decide, by decide⟩
  unfold resolveVerdict
  split_ifs <;> first | rfl | omega

/-- C3: for non-negative earlier window means, the concentration label is
"concentrating" iff `recent < earlier × 0.95`, "dispersing" iff
`recent > earlier × 1.05`, and "stable" otherwise — so both exact ±5%
relative boundaries classify as "stable". -/
theorem c3_concentration_label_thresholds (r e : ℚ) (he : 0 ≤ e) :
    (classifyConcentration r e = "concentrating" ↔ r < e * (95/100))
    ∧ (classifyConcentration r e = "dispersing" ↔ e * (105/100) < r)
    ∧ (classifyConcentration r e = "stable" ↔ e * (95/100) ≤ r ∧ r ≤ e * (105/100)) := by
  have hband : e * (95/100) ≤ e * (105/100) := by nlinarith
  unfold classifyConcentration
  split_ifs with h1 h2
  · refine ⟨⟨fun _ => h1, fun _ => rfl⟩,
      ⟨fun h => absurd h (by decide), fun h => by exfalso; linarith⟩,
      ⟨fun h => absurd h (by decide), fun h => by exfalso; linarith [h.1]⟩⟩
  · refine ⟨⟨fun h => absurd h (by decide), fun h => absurd h h1⟩,
      ⟨fun _ => h2, fun _ => rfl⟩,
      ⟨fun h => absurd h (by decide), fun h => by exfalso; linarith [h.2]⟩⟩
  · exact ⟨⟨fun h => absurd h (by decide), fun h => absurd h h1⟩,
      ⟨fun h => absurd h (by decide), fun h => absurd h h2⟩,
      ⟨fun _ => ⟨le_of_not_lt h1, le_of_not_gt h2⟩, fun _ => rfl⟩⟩

/-- C3 witness: at the exact −5% boundary (`recent = 0.95`, `earlier = 1`)
the label is "stable". -/
theorem c3_concentration_label_thresholds_witness :
    classifyConcentration (19/20) 1 = "stable" :=
  ((c3_concentration_label_thresholds (19/20) 1 (by norm_num)).2.2).mpr (by norm_num)

/-- C9: a data-source failure of the upstream chip-distribution fetch is
absorbed at the engine boundary: `analyze_chip_distribution` returns (does
not raise) the empty-result shape, whose three assessment status fields are
"unknown" and whose summary contains the error string. -/
theorem c9_fetch_error_absorbed (msg : String) (cp : Option ℚ) :
    analyzeChipDistribution (Except.error msg) cp = Except.ok (emptyChipResult msg)
    ∧ (emptyChipResult msg).assessment.chipStatus = "unknown"
    ∧ (emptyChipResult msg).assessment.pressureLevel = "unknown"
    ∧ (emptyChipResult msg).assessment.supportLevel = "unknown"
    ∧ (emptyChipResult msg).assessment.summary = "筹码数据获取失败: " ++ msg
    ∧ strContains (emptyChipResult msg).assessment.summary msg = true := by
  refine ⟨rfl, rfl, rfl, rfl, rfl, ?_⟩
  exact strContains_append_right "筹码数据获取失败: " msg

/-- C10: for every combination of label strings and numeric inputs, the
scoring rule set yields `accumulation_score ≤ 8` and
`distribution_score ≤ 6` (the scores are naturals, hence non-negative):
rules needing "concentrating" exclude rules needing "dispersing", and
winner-rate "falling" excludes "rising", so no co-firing combination can
exceed these totals. -/
theorem c10_score_bounds (concT costT winT : String) (lw : ℚ) (has10 : Bool)
    (r70 e70 : ℚ) :
    (chipScores concT costT winT lw has10 r70 e70).1 ≤ 8
    ∧ (chipScores concT costT winT lw has10 r70 e70).2.1 ≤ 6 := by
  simp only [chipScores, chipRule_eq, signal8Block_eq]
  by_cases hc : concT = "concentrating" <;> by_cases hd : concT = "dispersing" <;>
  by_cases hf : winT = "falling" <;> by_cases hr : winT = "rising" <;>
  simp_all +decide <;> split_ifs <;> omega

/-- C5: each horizon (short = 5, medium = 10, long = 20 points) is omitted
from the multi-period output exactly when the series has fewer than
`windowLen + 5` points (a silent omission); otherwise the recent mean is over
the last `windowLen` points, and the earlier mean is over the `windowLen`
points immediately preceding them, falling back to the first `windowLen`
points of the whole series when the series has fewer than `2 × windowLen`
points. -/
theorem c5_multi_period_windows (df : List ChipRow) (p : ℕ) :
    (multiPeriodEntry df p = none ↔ df.length < p + 5)
    ∧ ((analyzeChipTrend df).multiPeriod.short = multiPeriodEntry df 5
       ∧ (analyzeChipTrend df).multiPeriod.medium = multiPeriodEntry df 10
       ∧ (analyzeChipTrend df).multiPeriod.long = multiPeriodEntry df 20)
    ∧ (p + 5 ≤ df.length →
        (multiPeriodEntry df p).map MPEntry.recentAvgCost
            = some (roundTo 2 (mean ((mpRecentWindow df p).map (·.avgCost))))
        ∧ (multiPeriodEntry df p).map MPEntry.earlierAvgCost
            = some (roundTo 2 (mean ((mpEarlierWindow df p).map (·.avgCost))))
        ∧ (mpRecentWindow df p).length = p
        ∧ df.take (df.length - p) ++ mpRecentWindow df p = df
        ∧ (2 * p ≤ df.length →
            (mpEarlierWindow df p).length = p
            ∧ df.take (df.length - 2 * p) ++ (mpEarlierWindow df p ++ mpRecentWindow df p) = df)
        ∧ (df.length < 2 * p → mpEarlierWindow df p = df.take p)) := by
  refine ⟨?_, ⟨?_, ?_, ?_⟩, fun hlen => ?_⟩
  · by_cases h : df.length < p + 5 <;> simp [multiPeriodEntry, h]
  · rw [analyzeChipTrend_multiPeriod]
  · rw [analyzeChipTrend_multiPeriod]
  · rw [analyzeChipTrend_multiPeriod]
  · have h : ¬ df.length < p + 5 := by omega
    have hp : p ≤ df.length := by omega
    refine ⟨by simp [multiPeriodEntry, h], by simp [multiPeriodEntry, h], ?_, ?_, fun h2p => ?_, fun h2p => ?_⟩
    · simp [mpRecentWindow]
      omega
    · simpa [mpRecentWindow] using List.take_append_drop (df.length - p) df
    · have hcond : p * 2 ≤ df.length := by omega
      constructor
      · simp [mpEarlierWindow, if_pos hcond]
        omega
      · have hkey : (df.drop (df.length - p * 2)).drop p = df.drop (df.length - p) := by
          rw [List.drop_drop]
          congr 1
          omega
        calc df.take (df.length - 2 * p) ++ (mpEarlierWindow df p ++ mpRecentWindow df p)
            = df.take (df.length - 2 * p)
              ++ ((df.drop (df.length - p * 2)).take p ++ (df.drop (df.length - p * 2)).drop p) := by
              rw [hkey]
              simp [mpEarlierWindow, if_pos hcond, mpRecentWindow]
          _ = df.take (df.length - 2 * p) ++ df.drop (df.length - p * 2) := by
              rw [List.take_append_drop]
          _ = df := by
              have : df.length - p * 2 = df.length - 2 * p := by omega
              rw [this, List.take_append_drop]
    · have hcond : ¬ p * 2 ≤ df.length := by omega
      simp [mpEarlierWindow, if_neg hcond]

/-- C5 witness: on a 12-row series, the medium horizon (10) is omitted
(`12 < 15`), the short horizon (5) is present, its recent mean is over the
last 5 rows, and those 5 rows are a suffix of the series. -/
theorem c5_multi_period_windows_witness :
    (multiPeriodEntry exDf12 10 = none ↔ exDf12.length < 10 + 5)
    ∧ (multiPeriodEntry exDf12 5).map MPEntry.recentAvgCost
        = some (roundTo 2 (mean ((mpRecentWindow exDf12 5).map (·.avgCost))))
    ∧ exDf12.take (exDf12.length - 5) ++ mpRecentWindow exDf12 5 = exDf12 := by
  refine ⟨(c5_multi_period_windows exDf12 10).1, ?_, ?_⟩
  · exact ((c5_multi_period_windows exDf12 5).2.2 (by simp [exDf12])).1
  · exact ((c5_multi_period_windows exDf12 5).2.2 (by simp [exDf12])).2.2.2.1

/-- C6 counterexample: on a 3-row series, the returned `period_days` is `0`,
not `len(series) = 3` — the claim's `period_days == len(series)` fails, since
the source sets `period_days` only after the `len < 5` early return. -/
theorem c6_short_series_counterexample :
    exDf3.length = 3
    ∧ (analyzeChipTrend exDf3).periodDays = 0
    ∧ ¬ (analyzeChipTrend exDf3).periodDays = exDf3.length := by
  refine ⟨by simp [exDf3], ?_, ?_⟩ <;> simp [analyzeChipTrend, exDf3]

/-- C6 amended: for every series shorter than 5 points the returned record is
the untouched default: `period_days = 0` (not the series length), all trend
labels "stable", institutional signal "neutral" with confidence "low", empty
multi-period output and no interpretations. -/
theorem c6_short_series_defaults (df : List ChipRow) (h : df.length < 5) :
    (analyzeChipTrend df).periodDays = 0
    ∧ (analyzeChipTrend df).concentrationTrend = "stable"
    ∧ (analyzeChipTrend df).costCenterTrend = "stable"
    ∧ (analyzeChipTrend df).winnerRateTrend = "stable"
    ∧ (analyzeChipTrend df).institutionalSignal = "neutral"
    ∧ (analyzeChipTrend df).institutionalConfidence = "low"
    ∧ (analyzeChipTrend df).multiPeriod = ({} : MultiPeriod)
    ∧ (analyzeChipTrend df).interpretation = [] := by
  simp [analyzeChipTrend, if_pos h]

/-- C6 witness: the amended statement at the concrete 3-row series. -/
theorem c6_short_series_defaults_witness :
    (analyzeChipTrend exDf3).periodDays = 0
    ∧ (analyzeChipTrend exDf3).multiPeriod = ({} : MultiPeriod) :=
  ⟨(c6_short_series_defaults exDf3 (by simp [exDf3])).1,
   (c6_short_series_defaults exDf3 (by simp [exDf3])).2.2.2.2.2.2.1⟩

/-- C4 counterexample: a 10-row series whose early-window 90% concentration
mean is `0` and whose recent mean is `0.5` classifies as "dispersing", not
"stable" — the claim's "treated as 0% change, i.e. label 'stable'" fails for
the label (the multiplicative comparisons need no division). -/
theorem c4_zero_earlier_mean_counterexample :
    mean ((mainEarlyWindow exDfZeroEarly).map (·.conc90)) = 0
    ∧ (analyzeChipTrend exDfZeroEarly).concentrationTrend = "dispersing"
    ∧ ¬ (analyzeChipTrend exDfZeroEarly).concentrationTrend = "stable" := by
  have hmean : mean ((mainEarlyWindow exDfZeroEarly).map (·.conc90)) = 0 := by
    norm_num [exDfZeroEarly, mkRow, mainEarlyWindow, mean]
  have hlabel := (analyzeChipTrend_labels exDfZeroEarly (by simp [exDfZeroEarly])).1
  rw [hmean] at hlabel
  have hrec : mean ((mainRecentWindow exDfZeroEarly).map (·.conc90)) = 1/2 := by
    norm_num [exDfZeroEarly, mkRow, mainRecentWindow, mean]
  rw [hrec] at hlabel
  have : classifyConcentration (1/2) 0 = "dispersing" := by
    norm_num [classifyConcentration]
  rw [this] at hlabel
  exact ⟨hmean, hlabel, by rw [hlabel]; decide⟩

/-- C4 amended: a zero earlier-window mean never divides by zero — the
multi-period relative change is reported as 0% — but the trend label is not
forced to "stable": with zero earlier mean the concentration label is
"dispersing" for a positive recent mean, "concentrating" for a negative one,
and "stable" only when the recent mean is zero as well. -/
theorem c4_zero_earlier_mean_amended :
    (∀ (df : List ChipRow) (p : ℕ), p + 5 ≤ df.length →
       mean ((mpEarlierWindow df p).map (·.conc90)) = 0 →
       (multiPeriodEntry df p).map MPEntry.concentration90ChangePct = some 0)
    ∧ (∀ df : List ChipRow, 5 ≤ df.length →
       mean ((mainEarlyWindow df).map (·.conc90)) = 0 →
       (analyzeChipTrend df).concentrationTrend
         = (if mean ((mainRecentWindow df).map (·.conc90)) < 0 then "concentrating"
            else if 0 < mean ((mainRecentWindow df).map (·.conc90)) then "dispersing"
            else "stable")) := by
  constructor
  · intro df p hlen hz
    have h : ¬ df.length < p + 5 := by omega
    simp only [multiPeriodEntry, if_neg h, Option.map_some]
    simp [hz, roundTo, roundHalfEven, qfloor]
  · intro df h5 hz
    rw [(analyzeChipTrend_labels df h5).1, hz]
    unfold classifyConcentration
    norm_num

/-- C4 witness: the amended statement at the concrete zero-early-mean
series: the short-horizon change is reported as 0% and the label follows the
recent mean's sign (here "dispersing"). -/
theorem c4_zero_earlier_mean_amended_witness :
    (multiPeriodEntry exDfZeroEarly 5).map MPEntry.concentration90ChangePct = some 0
    ∧ (analyzeChipTrend exDfZeroEarly).concentrationTrend
        = (if mean ((mainRecentWindow exDfZeroEarly).map (·.conc90)) < 0 then "concentrating"
           else if 0 < mean ((mainRecentWindow exDfZeroEarly).map (·.conc90)) then "dispersing"
           else "stable") := by
  constructor
  · exact c4_zero_earlier_mean_amended.1 exDfZeroEarly 5 (by simp [exDfZeroEarly])
      (by norm_num [exDfZeroEarly, mkRow, mpEarlierWindow, mean])
  · exact c4_zero_earlier_mean_amended.2 exDfZeroEarly (by simp [exDfZeroEarly])
      (by norm_num [exDfZeroEarly, mkRow, mainEarlyWindow, mean])

/-- C7: removing any single domain's analysis record changes the aggregated
probability by exactly that domain's nudge, the removed domain then
contributes zero (the aggregation is total — it never fails), and every other
domain's contribution (nudge and key-factor entries) is unchanged. -/
theorem c7_missing_domain_graceful_degradation (inp : AnalysisInput) (d : Domain) :
    trendProbability (clearDomain d inp) = trendProbability inp - domainNudge d inp
    ∧ domainNudge d (clearDomain d inp) = 0
    ∧ (∀ d2 : Domain, d2 ≠ d →
        domainNudge d2 (clearDomain d inp) = domainNudge d2 inp
        ∧ domainFactors d2 (clearDomain d inp) = domainFactors d2 inp) := by
  have hT : technicalNudge none = 0 := rfl
  have hF : fundamentalNudge none = 0 := rfl
  have hFl : fundFlowNudge none = 0 := rfl
  have hC : chipNudge none = 0 := rfl
  have hL : lhbNudge none = 0 := rfl
  have hM : marginNudge none = 0 := rfl
  have hN : northboundNudge none = 0 := rfl
  have hB : blockTradeNudge none = 0 := rfl
  have hS : shareholderNudge none = 0 := rfl
  have hR : restrictedNudge none = 0 := rfl
  have hI : institutionNudge none = 0 := rfl
  refine ⟨?_, ?_, ?_⟩
  · rw [trendProbability_eq, trendProbability_eq]
    cases d <;>
      simp only [clearDomain, totalNudge, domainNudge, hT, hF, hFl, hC, hL, hM, hN, hB, hS, hR, hI] <;>
      ring
  · cases d <;> rfl
  · intro d2 hne
    cases d <;> cases d2 <;> first | exact absurd rfl hne | exact ⟨rfl, rfl⟩

/-- C7 witness: removing the technical domain from the concrete input drops
the probability by exactly the technical nudge and leaves the chip domain's
nudge and factors unchanged. -/
theorem c7_missing_domain_witness :
    trendProbability (clearDomain Domain.technical exInp)
        = trendProbability exInp - domainNudge Domain.technical exInp
    ∧ domainNudge Domain.chip (clearDomain Domain.technical exInp)
        = domainNudge Domain.chip exInp
    ∧ domainFactors Domain.chip (clearDomain Domain.technical exInp)
        = domainFactors Domain.chip exInp := by
  refine ⟨(c7_missing_domain_graceful_degradation exInp Domain.technical).1, ?_, ?_⟩
  · exact ((c7_missing_domain_graceful_degradation exInp Domain.technical).2.2
      Domain.chip (by decide)).1
  · exact ((c7_missing_domain_graceful_degradation exInp Domain.technical).2.2
      Domain.chip (by decide)).2

/-- C8: the price-target band of the prediction is a function of the
classification and the current price only — up gives
`[price × 1.05, price × 1.15]`, down `[price × 0.85, price × 0.98]`,
sideways `[price × 0.95, price × 1.08]` (each bound rounded to 2 decimals as
in the source) — and both bounds are omitted when the current price is
unknown or zero. -/
theorem c8_price_band_from_classification (inp : AnalysisInput) :
    ((predictionOf inp).targetPriceHigh
        = (priceTargets (predictionOf inp).trend (currentPriceOf inp)).1
     ∧ (predictionOf inp).targetPriceLow
        = (priceTargets (predictionOf inp).trend (currentPriceOf inp)).2)
    ∧ (∀ price : ℚ, 0 < price →
        priceTargets "up" price
          = (some (roundTo 2 (price * (115/100))), some (roundTo 2 (price * (105/100))))
        ∧ priceTargets "down" price
          = (some (roundTo 2 (price * (98/100))), some (roundTo 2 (price * (85/100))))
        ∧ priceTargets "sideways" price
          = (some (roundTo 2 (price * (108/100))), some (roundTo 2 (price * (95/100)))))
    ∧ (currentPriceOf inp ≤ 0 →
        (predictionOf inp).targetPriceHigh = none
        ∧ (predictionOf inp).targetPriceLow = none) := by
  refine ⟨⟨rfl, rfl⟩, fun price hp => ⟨?_, ?_, ?_⟩, fun hle => ?_⟩
  · unfold priceTargets
    rw [if_pos hp, if_pos rfl]
  · unfold priceTargets
    rw [if_pos hp, if_neg (by decide), if_pos rfl]
  · unfold priceTargets
    rw [if_pos hp, if_neg (by decide), if_neg (by decide)]
  · have hnp : ¬ currentPriceOf inp > 0 := not_lt.mpr hle
    constructor <;> simp [predictionOf, priceTargets, hnp]

/-- C8 witness: with a quote of 10 and trend "up" the band is
`[10 × 1.05, 10 × 1.15]` (rounded), and with no quote both bounds are
omitted. -/
theorem c8_price_band_witness :
    priceTargets "up" 10
      = (some (roundTo 2 (10 * (115/100))), some (roundTo 2 (10 * (105/100))))
    ∧ (predictionOf ({} : AnalysisInput)).targetPriceHigh = none := by
  refine ⟨((c8_price_band_from_classification exInp).2.1 10 (by norm_num)).1, ?_⟩
  exact ((c8_price_band_from_classification ({} : AnalysisInput)).2.2
    (by simp [currentPriceOf])).1

end OpenclawStock
